import Mathlib

/-!
Shallow embedding of the `myshop` Django application
(`src/my-shop/myshop/models.py` and the schema migration
`src/my-shop/myshop/migrations/0001_initial.py`), together with theorems
about the behaviour specified for its model methods.

Conventions of the embedding:
* Django model rows become Lean structures; related querysets
  (`self.variants`, `CartItem.objects.filter(...)`) become lists of rows.
* `Money` (from `shop.money`) is a currency string together with an
  optional decimal amount; `none` stands for the NaN amount carried by an
  empty `Money()` value.  Decimal amounts are embedded as rationals.
* Python exceptions become an error type `Err`; a method that can raise
  returns `Except Err _`.
* The HTTP `request` argument threaded through the price accessors is an
  opaque value (embedded as a natural number); none of the embedded
  methods inspects it, exactly as in the source.
-/

namespace MyShop

/-- An opaque HTTP request value, as passed to `get_price` and friends. -/
abbrev Request := Nat

/-- The default currency configured in `settings.py` (`SHOP_DEFAULT_CURRENCY`). -/
def defaultCurrency : String := "EUR"

/-- A `shop.money.Money` value: a currency code plus a decimal amount;
`amount = none` models the NaN amount of an empty `Money()`. -/
structure Money where
  currency : String
  amount : Option ℚ
deriving DecidableEq

/-- The value `Money()` built with no arguments: default currency, NaN amount. -/
def Money.empty : Money := { currency := defaultCurrency, amount := none }

/-- The Django model classes whose `DoesNotExist` exception classes occur in
the embedded code. -/
inductive DjangoModel where
  | smartPhoneModel
  | smartPhoneVariant
  | cartItem
deriving DecidableEq

/-- Python exceptions that the embedded methods raise or catch.
`doesNotExist model` stands for the per-model `DoesNotExist` exception class,
every one of which subclasses `django.core.exceptions.ObjectDoesNotExist`. -/
inductive Err where
  | keyError
  | doesNotExist (model : DjangoModel)
  | multipleObjectsReturned
deriving DecidableEq

/-- Whether an exception is an instance of `ObjectDoesNotExist`
(every model-specific `DoesNotExist` class is). -/
def Err.isObjectDoesNotExist : Err → Bool
  | .doesNotExist _ => true
  | _ => false

/-- A row of the `SmartPhoneVariant` table (`models.py`, class
`SmartPhoneVariant`): product code, unit price, internal storage and stock
quantity.  The `product` foreign key is represented by membership in the
owning model's `variants` list. -/
structure SmartPhoneVariant where
  product_code : String
  unit_price : Money
  storage : ℕ
  quantity : ℕ
deriving DecidableEq

/-- A row of the `SmartPhoneModel` table (`models.py`, class
`SmartPhoneModel`), including the fields inherited from the polymorphic
`Product` base (name, slug, manufacturer, sort order) and the related
queryset `variants` (reverse side of `SmartPhoneVariant.product`). -/
structure SmartPhoneModel where
  product_name : String
  slug : String
  manufacturer : ℕ
  order : ℕ
  battery_type : ℕ
  battery_capacity : ℕ
  ram_storage : ℕ
  wifi_connectivity : ℕ
  bluetooth : ℕ
  gps : Bool
  operating_system : ℕ
  width : ℚ
  height : ℚ
  weight : ℚ
  screen_size : ℚ
  variants : List SmartPhoneVariant
deriving DecidableEq

/-- A row of the `Commodity` table (`models.py`, class `Commodity`). -/
structure Commodity where
  product_name : String
  slug : String
  manufacturer : ℕ
  order : ℕ
  unit_price : Money
  product_code : String
  quantity : ℕ
deriving DecidableEq

/-- A row of the `SmartCard` table (`models.py`, class `SmartCard`). -/
structure SmartCard where
  product_name : String
  slug : String
  manufacturer : ℕ
  order : ℕ
  unit_price : Money
  card_type : String
  speed : String
  product_code : String
  storage : ℕ
  quantity : ℕ
deriving DecidableEq

/-- `Commodity.get_price(self, request)`: returns `self.unit_price`. -/
def Commodity.get_price (self : Commodity) (request : Request) : Money :=
  self.unit_price

/-- `SmartCard.get_price(self, request)`: returns `self.unit_price`. -/
def SmartCard.get_price (self : SmartCard) (request : Request) : Money :=
  self.unit_price

/-- `SmartPhoneVariant.get_price(self, request)`: returns `self.unit_price`. -/
def SmartPhoneVariant.get_price (self : SmartPhoneVariant) (request : Request) : Money :=
  self.unit_price

/-- The SQL aggregate `MIN` over a list of decimal column values:
`none` on the empty list, otherwise the least element. -/
def listMinQ : List ℚ → Option ℚ
  | [] => none
  | q :: qs =>
    match listMinQ qs with
    | none => some q
    | some m => some (min q m)

/-- `SmartPhoneModel.get_price(self, request)`: if the model has variants,
take the currency of the first variant and the minimum of
`unit_price` over all variants (`self.variants.aggregate(Min('unit_price'))`
wrapped by `MoneyMaker(currency)`); otherwise return `Money()`.
The `_price` attribute in the source only memoizes this value, so the
embedding computes it directly. -/
def SmartPhoneModel.get_price (self : SmartPhoneModel) (request : Request) : Money :=
  match self.variants with
  | [] => Money.empty
  | v :: _ =>
    { currency := v.unit_price.currency,
      amount := listMinQ (self.variants.filterMap (fun w => w.unit_price.amount)) }

/-- `self.variants.get(product_code=product_code)`: the Django queryset
`get`, which raises `SmartPhoneVariant.DoesNotExist` when no row matches and
`MultipleObjectsReturned` when several do. -/
def variantsGet (variants : List SmartPhoneVariant) (product_code : Option String) :
    Except Err SmartPhoneVariant :=
  match variants.filter (fun v => decide (product_code = some v.product_code)) with
  | [] => .error (.doesNotExist .smartPhoneVariant)
  | [v] => .ok v
  | _ :: _ :: _ => .error .multipleObjectsReturned

/-- `SmartPhoneModel.get_product_variant(self, **kwargs)`: reads
`kwargs.get('product_code')` (hence an `Option String` argument, `none` when
the keyword is absent), performs the queryset `get`, and re-raises a
`SmartPhoneVariant.DoesNotExist` as `SmartPhoneModel.DoesNotExist`. -/
def SmartPhoneModel.get_product_variant (self : SmartPhoneModel)
    (product_code : Option String) : Except Err SmartPhoneVariant :=
  match variantsGet self.variants product_code with
  | .ok v => .ok v
  | .error e =>
    if e = .doesNotExist .smartPhoneVariant then
      .error (.doesNotExist .smartPhoneModel)
    else
      .error e

/-- Modelled from the spec: `SmartPhoneVariant.deduct_from_stock` is
inherited from `shop.models.product.AvailableProductMixin`, code of the
external commerce framework that is not under `src/`; per the spec, all
stock deduction deducts the ordered quantity from the variant's available
stock quantity and touches nothing else. -/
def SmartPhoneVariant.deduct_from_stock (self : SmartPhoneVariant) (quantity : ℕ) :
    SmartPhoneVariant :=
  { self with quantity := self.quantity - quantity }

/-- `SmartPhoneModel.deduct_from_stock(self, quantity, **kwargs)`: resolves
the variant named by `kwargs` via `get_product_variant` and delegates the
deduction to that variant.  Mutation of the resolved row is embedded as
updating the matching entry of `variants`. -/
def SmartPhoneModel.deduct_from_stock (self : SmartPhoneModel) (quantity : ℕ)
    (product_code : Option String) : Except Err SmartPhoneModel :=
  match self.get_product_variant product_code with
  | .error e => .error e
  | .ok _ =>
    .ok { self with
          variants := self.variants.map (fun w =>
            if product_code = some w.product_code then
              w.deduct_from_stock quantity
            else w) }

/-- A `Cart` row, identified by its primary key. -/
abbrev Cart := Nat

/-- A row of the `CartItem` table: the owning cart, the referenced
(polymorphic) product, the chosen variant's product code, and the quantity. -/
structure CartItem where
  cart : Cart
  product : SmartPhoneModel
  product_code : String
  quantity : ℕ
deriving DecidableEq

/-- `SmartPhoneModel.is_in_cart(self, cart, watched=False, **kwargs)`:
returns `None` when `kwargs['product_code']` raises `KeyError`; otherwise
scans `CartItem.objects.filter(cart=cart, product=self)` and returns the
first item whose `product_code` equals the requested one, or `None`.
`allCartItems` stands for the `CartItem` table. -/
def SmartPhoneModel.is_in_cart (self : SmartPhoneModel) (cart : Cart)
    (watched : Bool) (allCartItems : List CartItem)
    (product_code : Option String) : Option CartItem :=
  match product_code with
  | none => none
  | some code =>
    (allCartItems.filter
        (fun ci => decide (ci.cart = cart ∧ ci.product = self))).find?
      (fun ci => decide (ci.product_code = code))

/-- A row of the `OrderItem` table (`models.py`, class `OrderItem`):
ordered quantity, cancellation flag, and the internal `_unit_price`
captured at population time (`none` before population). -/
structure OrderItem where
  quantity : ℕ
  canceled : Bool
  unit_price : Option ℚ
deriving DecidableEq

/-- `OrderItem.populate_from_cart_item(self, cart_item, request)`: first
calls `super().populate_from_cart_item` (external framework code, passed in
as `superPopulate`), then fetches the variant via
`cart_item.product.get_product_variant(product_code=cart_item.product_code)`
and stores its unit price in `_unit_price`; a `KeyError` or
`ObjectDoesNotExist` raised while doing so is re-raised as
`CartItem.DoesNotExist`. -/
def OrderItem.populate_from_cart_item
    (superPopulate : OrderItem → CartItem → OrderItem)
    (self : OrderItem) (cart_item : CartItem) : Except Err OrderItem :=
  match cart_item.product.get_product_variant (some cart_item.product_code) with
  | .ok variant =>
    .ok { superPopulate self cart_item with unit_price := variant.unit_price.amount }
  | .error e =>
    if e = .keyError ∨ e.isObjectDoesNotExist then
      .error (.doesNotExist .cartItem)
    else
      .error e

/-- A column declaration of the migration `0001_initial.py`: the column
name and whether the migration passes `unique=True` for it.  (Primary-key
uniqueness is declared separately via `primary_key=True` and is not
recorded here.) -/
structure ColumnDecl where
  name : String
  unique : Bool
deriving DecidableEq

/-- The columns of table `SmartCard` as declared in `0001_initial.py`. -/
def smartCardColumns : List ColumnDecl :=
  [⟨"product_ptr", false⟩, ⟨"unit_price", false⟩, ⟨"card_type", false⟩,
   ⟨"speed", false⟩, ⟨"product_code", true⟩, ⟨"storage", false⟩,
   ⟨"quantity", false⟩]

/-- The columns of table `SmartPhoneVariant` as declared in `0001_initial.py`. -/
def smartPhoneVariantColumns : List ColumnDecl :=
  [⟨"id", false⟩, ⟨"product_code", true⟩, ⟨"unit_price", false⟩,
   ⟨"storage", false⟩, ⟨"quantity", false⟩, ⟨"product", false⟩]

/-- The columns of table `Commodity` as declared in `0001_initial.py`. -/
def commodityColumns : List ColumnDecl :=
  [⟨"product_ptr", false⟩, ⟨"unit_price", false⟩, ⟨"product_code", true⟩,
   ⟨"quantity", false⟩, ⟨"placeholder", false⟩]

/-- A table row for the schema model: an association of column names to
(serialized) values; absent keys model SQL NULL. -/
abbrev Row := List (String × String)

/-- Two rows respect a unique constraint on column `c` when they do not
share a non-null value there. -/
def uniqueOk (c : String) (r₁ r₂ : Row) : Prop :=
  r₁.lookup c = none ∨ r₁.lookup c ≠ r₂.lookup c

instance (c : String) (r₁ r₂ : Row) : Decidable (uniqueOk c r₁ r₂) := by
  unfold uniqueOk; infer_instance

/-- A database state for a table is valid when every column the migration
declares `unique=True` holds pairwise distinct non-null values. -/
def validState (cols : List ColumnDecl) (rows : List Row) : Prop :=
  ∀ col ∈ cols, col.unique = true → rows.Pairwise (uniqueOk col.name)

instance (cols : List ColumnDecl) (rows : List Row) : Decidable (validState cols rows) := by
  unfold validState; infer_instance

/-! Example rows used to instantiate the theorems on concrete data. -/

/-- A sample variant: 16 GB for 10 EUR. -/
def phoneVariantA : SmartPhoneVariant :=
  { product_code := "SP-A", unit_price := ⟨"EUR", some 10⟩, storage := 16, quantity := 5 }

/-- A sample variant: 32 GB for 8 EUR. -/
def phoneVariantB : SmartPhoneVariant :=
  { product_code := "SP-B", unit_price := ⟨"EUR", some 8⟩, storage := 32, quantity := 5 }

/-- A sample variant: 64 GB for 12 EUR. -/
def phoneVariantC : SmartPhoneVariant :=
  { product_code := "SP-C", unit_price := ⟨"EUR", some 12⟩, storage := 64, quantity := 5 }

/-- A sample smart phone model with variants priced 10, 8 and 12 EUR. -/
def examplePhone : SmartPhoneModel :=
  { product_name := "Example Phone", slug := "example-phone", manufacturer := 1,
    order := 1, battery_type := 1, battery_capacity := 3000, ram_storage := 2048,
    wifi_connectivity := 1, bluetooth := 1, gps := false, operating_system := 1,
    width := 70, height := 140, weight := 150, screen_size := 5,
    variants := [phoneVariantA, phoneVariantB, phoneVariantC] }

/-- A sample smart phone model with no variants. -/
def emptyPhone : SmartPhoneModel :=
  { examplePhone with slug := "empty-phone", variants := [] }

/-- A cart item whose product code resolves to `phoneVariantB`. -/
def goodCartItem : CartItem :=
  { cart := 1, product := examplePhone, product_code := "SP-B", quantity := 1 }

/-- A cart item whose product code matches no variant of its product. -/
def orphanCartItem : CartItem :=
  { cart := 1, product := examplePhone, product_code := "MISSING", quantity := 2 }

/-! Properties of the embedded SQL `MIN` aggregate. -/

/-- `listMinQ` returns an element of the list. -/
theorem listMinQ_mem : ∀ {l : List ℚ} {q : ℚ}, listMinQ l = some q → q ∈ l := by
  intro l
  induction l with
  | nil => intro q h; simp [listMinQ] at h
  | cons a t ih =>
    intro q h
    rw [listMinQ] at h
    cases ht : listMinQ t with
    | none =>
      rw [ht] at h
      injection h with h
      subst h
      exact List.mem_cons_self a t
    | some m =>
      rw [ht] at h
      injection h with h
      rcases min_cases a m with ⟨h1, _⟩ | ⟨h1, _⟩ <;> rw [h1] at h <;> subst h
      · exact List.mem_cons_self a t
      · exact List.mem_cons_of_mem a (ih ht)

/-- `listMinQ` is a lower bound for every element of the list. -/
theorem listMinQ_le : ∀ {l : List ℚ} {q : ℚ}, listMinQ l = some q →
    ∀ a ∈ l, q ≤ a := by
  intro l
  induction l with
  | nil => intro q h; simp [listMinQ] at h
  | cons a t ih =>
    intro q h b hb
    rw [listMinQ] at h
    cases ht : listMinQ t with
    | none =>
      rw [ht] at h
      injection h with h
      subst h
      rcases List.mem_cons.mp hb with hb | hb
      · exact le_of_eq hb.symm
      · cases t with
        | nil => simp at hb
        | cons x s => rw [listMinQ] at ht; cases hx : listMinQ s <;> rw [hx] at ht <;> simp at ht
    | some m =>
      rw [ht] at h
      injection h with h
      subst h
      rcases List.mem_cons.mp hb with hb | hb
      · rw [hb]; exact min_le_left a m
      · exact le_trans (min_le_right a m) (ih ht b hb)

/-- `listMinQ` yields a value on a nonempty list. -/
theorem listMinQ_isSome {l : List ℚ} (h : l ≠ []) : ∃ q, listMinQ l = some q := by
  cases l with
  | nil => exact absurd rfl h
  | cons a t =>
    rw [listMinQ]
    cases listMinQ t with
    | none => exact ⟨a, rfl⟩
    | some m => exact ⟨min a m, rfl⟩

/-! Theorems about the specified behaviour. -/

/-- C7: a `SmartPhoneModel` with no variants does not fail in `get_price`;
it returns the empty `Money()` value. -/
theorem get_price_no_variants (m : SmartPhoneModel) (request : Request)
    (h : m.variants = []) : m.get_price request = Money.empty := by
  unfold SmartPhoneModel.get_price
  rw [h]

/-- Witness for C7 at a concrete variant-free model. -/
theorem get_price_no_variants_witness :
    emptyPhone.variants = [] ∧ emptyPhone.get_price 0 = Money.empty :=
  ⟨rfl, get_price_no_variants emptyPhone 0 rfl⟩

/-- C8: for each of the four product types, `get_price` does not depend on
the `request` argument: two calls with different requests on the same
instance return equal prices. -/
theorem get_price_request_independent (co : Commodity) (sc : SmartCard)
    (v : SmartPhoneVariant) (m : SmartPhoneModel) (r₁ r₂ : Request) :
    co.get_price r₁ = co.get_price r₂ ∧ sc.get_price r₁ = sc.get_price r₂ ∧
    v.get_price r₁ = v.get_price r₂ ∧ m.get_price r₁ = m.get_price r₂ :=
  ⟨rfl, rfl, rfl, rfl⟩

/-- C1: for a model with at least one variant, `get_price` carries the
currency of the first variant, and its amount is the minimum of the unit
prices over all the model's variants (a lower bound that is attained). -/
theorem get_price_is_min_over_variants (m : SmartPhoneModel) (request : Request)
    (v : SmartPhoneVariant) (vs : List SmartPhoneVariant)
    (hvar : m.variants = v :: vs)
    (hsome : ∀ w ∈ m.variants, (w.unit_price.amount).isSome = true) :
    (m.get_price request).currency = v.unit_price.currency ∧
    ∃ q : ℚ,
      (m.get_price request).amount = some q ∧
      (∀ w ∈ m.variants, ∀ a : ℚ, w.unit_price.amount = some a → q ≤ a) ∧
      (∃ w ∈ m.variants, w.unit_price.amount = some q) := by
  have hprice : m.get_price request =
      { currency := v.unit_price.currency,
        amount := listMinQ (m.variants.filterMap (fun w => w.unit_price.amount)) } := by
    unfold SmartPhoneModel.get_price
    rw [hvar]
  have hv_mem : v ∈ m.variants := by rw [hvar]; exact List.mem_cons_self v vs
  obtain ⟨a, ha⟩ := Option.isSome_iff_exists.mp (hsome v hv_mem)
  have hmem_a : a ∈ m.variants.filterMap (fun w => w.unit_price.amount) :=
    List.mem_filterMap.mpr ⟨v, hv_mem, ha⟩
  have hne : m.variants.filterMap (fun w => w.unit_price.amount) ≠ [] := by
    intro h0
    rw [h0] at hmem_a
    exact List.not_mem_nil a hmem_a
  obtain ⟨q, hq⟩ := listMinQ_isSome hne
  refine ⟨by rw [hprice], q, by rw [hprice]; exact hq, ?_, ?_⟩
  · intro w hw b hb
    exact listMinQ_le hq b (List.mem_filterMap.mpr ⟨w, hw, hb⟩)
  · obtain ⟨w, hw, hwq⟩ := List.mem_filterMap.mp (listMinQ_mem hq)
    exact ⟨w, hw, hwq⟩

/-- Witness for C1: on variants priced 10, 8 and 12 EUR the price is 8 EUR. -/
theorem get_price_is_min_over_variants_witness :
    (examplePhone.get_price 0).amount = some 8 ∧
    (examplePhone.get_price 0).currency = "EUR" ∧
    (∃ q : ℚ,
      (examplePhone.get_price 0).amount = some q ∧
      (∀ w ∈ examplePhone.variants, ∀ a : ℚ, w.unit_price.amount = some a → q ≤ a) ∧
      (∃ w ∈ examplePhone.variants, w.unit_price.amount = some q)) := by
  have h := get_price_is_min_over_variants examplePhone 0 phoneVariantA
    [phoneVariantB, phoneVariantC] rfl (by decide)
  exact ⟨by decide, h.1.trans rfl, h.2⟩

/-- In a list of variants with pairwise distinct product codes, filtering on
the code of a member yields exactly that member. -/
theorem filter_code_eq_single {c : String} :
    ∀ {l : List SmartPhoneVariant} {v : SmartPhoneVariant},
      v ∈ l → v.product_code = c →
      (l.map SmartPhoneVariant.product_code).Nodup →
      l.filter (fun w => decide (some c = some w.product_code)) = [v] := by
  intro l
  induction l with
  | nil => intro v hv; exact absurd hv (List.not_mem_nil v)
  | cons w t ih =>
    intro v hv hvc hnd
    rw [List.map_cons] at hnd
    rcases List.nodup_cons.mp hnd with ⟨hw_not, hnd_t⟩
    by_cases hwc : w.product_code = c
    · have hc_not : c ∉ t.map SmartPhoneVariant.product_code := hwc ▸ hw_not
      have hv_eq : v = w := by
        rcases List.mem_cons.mp hv with h | h
        · exact h
        · exfalso
          apply hc_not
          rw [← hvc]
          exact List.mem_map_of_mem SmartPhoneVariant.product_code h
      subst hv_eq
      have hnil : t.filter (fun u => decide (some c = some u.product_code)) = [] := by
        rw [List.filter_eq_nil_iff]
        intro u hu
        simp only [decide_eq_true_eq, Option.some.injEq]
        intro hcu
        apply hc_not
        rw [hcu]
        exact List.mem_map_of_mem SmartPhoneVariant.product_code hu
      rw [List.filter_cons_of_pos (by simp [hwc]), hnil]
    · have hv_t : v ∈ t := by
        rcases List.mem_cons.mp hv with h | h
        · exact absurd (h ▸ hvc) hwc
        · exact h
      rw [List.filter_cons_of_neg (by
        simp only [decide_eq_true_eq, Option.some.injEq]
        exact fun hcw => hwc hcw.symm)]
      exact ih hv_t hvc hnd_t

/-- C3: under pairwise distinct variant codes, `get_product_variant`
returns the variant whose `product_code` equals the requested code when it
exists, and raises `SmartPhoneModel.DoesNotExist` (translated from the
queryset's `SmartPhoneVariant.DoesNotExist`) when no variant matches. -/
theorem get_product_variant_lookup (m : SmartPhoneModel) (c : String)
    (hnd : (m.variants.map SmartPhoneVariant.product_code).Nodup) :
    (∀ v ∈ m.variants, v.product_code = c →
      m.get_product_variant (some c) = .ok v) ∧
    ((∀ v ∈ m.variants, v.product_code ≠ c) →
      m.get_product_variant (some c) = .error (.doesNotExist .smartPhoneModel)) := by
  constructor
  · intro v hv hvc
    unfold SmartPhoneModel.get_product_variant variantsGet
    rw [filter_code_eq_single hv hvc hnd]
  · intro hnone
    unfold SmartPhoneModel.get_product_variant variantsGet
    have hnil : m.variants.filter (fun w => decide (some c = some w.product_code)) = [] := by
      rw [List.filter_eq_nil_iff]
      intro w hw
      simp only [decide_eq_true_eq, Option.some.injEq]
      intro hcw
      exact hnone w hw hcw.symm
    rw [hnil]
    rfl

/-- A product code matching no variant of `examplePhone`. -/
def missingCode : String := "MISSING"

/-- The product code of `phoneVariantB`. -/
def codeB : String := "SP-B"

/-- Witness for C3 on `examplePhone`: looking up an existing and a missing
product code. -/
theorem get_product_variant_lookup_witness :
    examplePhone.get_product_variant (some codeB) = .ok phoneVariantB ∧
    examplePhone.get_product_variant (some missingCode) =
      .error (.doesNotExist .smartPhoneModel) := by
  have h1 := get_product_variant_lookup examplePhone codeB (by decide)
  have h2 := get_product_variant_lookup examplePhone missingCode (by decide)
  exact ⟨h1.1 phoneVariantB (by decide) rfl, h2.2 (by decide)⟩

/-- C2: population raises `CartItem.DoesNotExist` exactly when resolving the
cart item's variant by product code fails with `KeyError` or an
`ObjectDoesNotExist` (which covers the missing-variant case). -/
theorem populate_not_found_iff (superPopulate : OrderItem → CartItem → OrderItem)
    (self : OrderItem) (cart_item : CartItem) :
    (OrderItem.populate_from_cart_item superPopulate self cart_item =
      .error (.doesNotExist .cartItem)) ↔
    (∃ e, cart_item.product.get_product_variant (some cart_item.product_code) = .error e ∧
      (e = .keyError ∨ e.isObjectDoesNotExist = true)) := by
  unfold OrderItem.populate_from_cart_item
  cases hg : cart_item.product.get_product_variant (some cart_item.product_code) with
  | ok v => simp [hg]
  | error e =>
    by_cases hc : e = .keyError ∨ e.isObjectDoesNotExist = true
    · simp only [hg, if_pos hc]
      exact ⟨fun _ => ⟨e, rfl, hc⟩, fun _ => trivial⟩
    · simp only [hg, if_neg hc]
      constructor
      · intro h
        injection h with h
        exfalso
        apply hc
        rw [h]
        exact Or.inr rfl
      · intro ⟨e', he', hce'⟩
        injection he' with he'
        exact absurd (he' ▸ hce') hc

/-- Witness for C2: populating from a cart item whose product code matches
no variant fails with the not-found condition. -/
theorem populate_not_found_iff_witness :
    OrderItem.populate_from_cart_item (fun o _ => o)
      { quantity := 2, canceled := false, unit_price := none } orphanCartItem =
      .error (.doesNotExist .cartItem) :=
  (populate_not_found_iff (fun o _ => o)
      { quantity := 2, canceled := false, unit_price := none } orphanCartItem).mpr
    ⟨.doesNotExist .smartPhoneModel, rfl, Or.inr rfl⟩

/-- C4: whenever population succeeds, the produced order item's unit price
equals the unit price of the variant resolved from the cart item's product
code. -/
theorem populate_copies_variant_unit_price
    (superPopulate : OrderItem → CartItem → OrderItem)
    (self : OrderItem) (cart_item : CartItem) (oi : OrderItem)
    (h : OrderItem.populate_from_cart_item superPopulate self cart_item = .ok oi) :
    ∃ v, cart_item.product.get_product_variant (some cart_item.product_code) = .ok v ∧
      oi.unit_price = v.unit_price.amount := by
  unfold OrderItem.populate_from_cart_item at h
  cases hg : cart_item.product.get_product_variant (some cart_item.product_code) with
  | ok v =>
    rw [hg] at h
    injection h with h
    exact ⟨v, rfl, by rw [← h]⟩
  | error e =>
    rw [hg] at h
    have h2 : (if e = Err.keyError ∨ e.isObjectDoesNotExist = true then
        (Except.error (Err.doesNotExist DjangoModel.cartItem) : Except Err OrderItem)
      else Except.error e) = Except.ok oi := h
    exfalso
    by_cases hc : e = Err.keyError ∨ e.isObjectDoesNotExist = true
    · rw [if_pos hc] at h2; exact Except.noConfusion h2
    · rw [if_neg hc] at h2; exact Except.noConfusion h2

/-- Witness for C4: populating from a cart item that resolves to
`phoneVariantB` stores that variant's unit price, 8 EUR. -/
theorem populate_copies_variant_unit_price_witness :
    ∃ v, goodCartItem.product.get_product_variant (some goodCartItem.product_code) = .ok v ∧
      (OrderItem.mk 1 false (some 8)).unit_price = v.unit_price.amount :=
  populate_copies_variant_unit_price (fun o _ => o)
    { quantity := 1, canceled := false, unit_price := none } goodCartItem
    { quantity := 1, canceled := false, unit_price := some 8 } rfl

/-- C5: when `deduct_from_stock` succeeds for a product code, only the
stock quantity of the variant carrying that code changes: every other
variant is untouched, the matched variant keeps its code, price and
storage, and every non-variant field of the model is unchanged. -/
theorem deduct_from_stock_frame (m : SmartPhoneModel) (qty : ℕ) (c : String)
    (m' : SmartPhoneModel)
    (h : m.deduct_from_stock qty (some c) = .ok m') :
    m'.product_name = m.product_name ∧ m'.slug = m.slug ∧
    m'.manufacturer = m.manufacturer ∧ m'.order = m.order ∧
    m'.battery_type = m.battery_type ∧ m'.battery_capacity = m.battery_capacity ∧
    m'.ram_storage = m.ram_storage ∧ m'.wifi_connectivity = m.wifi_connectivity ∧
    m'.bluetooth = m.bluetooth ∧ m'.gps = m.gps ∧
    m'.operating_system = m.operating_system ∧ m'.width = m.width ∧
    m'.height = m.height ∧ m'.weight = m.weight ∧ m'.screen_size = m.screen_size ∧
    m'.variants.length = m.variants.length ∧
    ∀ (i : ℕ) (hi : i < m.variants.length) (hi' : i < m'.variants.length),
      ((m.variants.get ⟨i, hi⟩).product_code ≠ c →
        m'.variants.get ⟨i, hi'⟩ = m.variants.get ⟨i, hi⟩) ∧
      ((m.variants.get ⟨i, hi⟩).product_code = c →
        m'.variants.get ⟨i, hi'⟩ =
          { m.variants.get ⟨i, hi⟩ with
            quantity := (m.variants.get ⟨i, hi⟩).quantity - qty }) := by
  unfold SmartPhoneModel.deduct_from_stock at h
  cases hg : m.get_product_variant (some c) with
  | error e => rw [hg] at h; exact Except.noConfusion h
  | ok v =>
    rw [hg] at h
    injection h with h
    subst h
    refine ⟨rfl, rfl, rfl, rfl, rfl, rfl, rfl, rfl, rfl, rfl, rfl, rfl, rfl, rfl, rfl,
      by simp, ?_⟩
    intro i hi hi'
    constructor
    · intro hne
      show (m.variants.map _).get ⟨i, hi'⟩ = _
      rw [List.get_map]
      exact if_neg (fun hq => hne (Option.some.inj hq).symm)
    · intro heq
      show (m.variants.map _).get ⟨i, hi'⟩ = _
      rw [List.get_map]
      rw [if_pos (by rw [heq])]
      rfl

/-- The example phone after deducting 2 units of stock from variant SP-B. -/
def deductedPhone : SmartPhoneModel :=
  { examplePhone with
    variants := [phoneVariantA, { phoneVariantB with quantity := 3 }, phoneVariantC] }

/-- Witness for C5: deducting 2 units of SP-B stock on `examplePhone` leaves
the first variant and the model's scalar fields unchanged. -/
theorem deduct_from_stock_frame_witness :
    deductedPhone.product_name = examplePhone.product_name ∧
    deductedPhone.variants.length = examplePhone.variants.length ∧
    deductedPhone.variants.get ⟨0, by decide⟩ = examplePhone.variants.get ⟨0, by decide⟩ := by
  have h := deduct_from_stock_frame examplePhone 2 codeB deductedPhone rfl
  obtain ⟨h1, -, -, -, -, -, -, -, -, -, -, -, -, -, -, hlen, hidx⟩ := h
  exact ⟨h1, hlen, (hidx 0 (by decide) (by decide)).1 (by decide)⟩

/-- The column name `product_code`. -/
def productCodeColumn : String := "product_code"

/-- C6: the migration declares `product_code` with `unique=True` in each of
the `SmartCard`, `SmartPhoneVariant` and `Commodity` tables, so in every
valid database state of any of these tables no two rows share a non-null
`product_code`. -/
theorem product_code_unique_in_schema :
    (∃ col ∈ smartCardColumns, col.name = productCodeColumn ∧ col.unique = true) ∧
    (∃ col ∈ smartPhoneVariantColumns, col.name = productCodeColumn ∧ col.unique = true) ∧
    (∃ col ∈ commodityColumns, col.name = productCodeColumn ∧ col.unique = true) ∧
    (∀ cols ∈ [smartCardColumns, smartPhoneVariantColumns, commodityColumns],
      ∀ rows : List Row, validState cols rows →
        rows.Pairwise (uniqueOk productCodeColumn)) := by
  refine ⟨⟨⟨productCodeColumn, true⟩, by decide, rfl, rfl⟩,
    ⟨⟨productCodeColumn, true⟩, by decide, rfl, rfl⟩,
    ⟨⟨productCodeColumn, true⟩, by decide, rfl, rfl⟩, ?_⟩
  intro cols hcols rows hvalid
  rcases List.mem_cons.mp hcols with h | hcols
  · subst h; exact hvalid ⟨productCodeColumn, true⟩ (by decide) rfl
  · rcases List.mem_cons.mp hcols with h | hcols
    · subst h; exact hvalid ⟨productCodeColumn, true⟩ (by decide) rfl
    · rcases List.mem_cons.mp hcols with h | hcols
      · subst h; exact hvalid ⟨productCodeColumn, true⟩ (by decide) rfl
      · exact absurd hcols (List.not_mem_nil cols)

/-- A sample row of the `SmartPhoneVariant` table. -/
def rowA : Row := [("id", "1"), ("product_code", "SP-A")]

/-- Another sample row of the `SmartPhoneVariant` table, distinct code. -/
def rowB : Row := [("id", "2"), ("product_code", "SP-B")]

/-- Witness for C6 on a concrete valid two-row state of `SmartPhoneVariant`. -/
theorem product_code_unique_in_schema_witness :
    validState smartPhoneVariantColumns [rowA, rowB] ∧
    ([rowA, rowB] : List Row).Pairwise (uniqueOk productCodeColumn) :=
  ⟨by decide,
    product_code_unique_in_schema.2.2.2 smartPhoneVariantColumns (by decide)
      [rowA, rowB] (by decide)⟩

/-- C9: `is_in_cart` returns no item when the `product_code` keyword is
absent; when it is given, any returned cart item belongs to the given cart,
references this product and carries the given code, and nothing is returned
when no such cart item exists. -/
theorem is_in_cart_spec (m : SmartPhoneModel) (cart : Cart) (watched : Bool)
    (items : List CartItem) :
    m.is_in_cart cart watched items none = none ∧
    ∀ c : String,
      (∀ ci : CartItem, m.is_in_cart cart watched items (some c) = some ci →
        ci.cart = cart ∧ ci.product = m ∧ ci.product_code = c) ∧
      ((∀ ci ∈ items, ¬(ci.cart = cart ∧ ci.product = m ∧ ci.product_code = c)) →
        m.is_in_cart cart watched items (some c) = none) := by
  refine ⟨rfl, fun c => ⟨?_, ?_⟩⟩
  · intro ci hci
    have hci' : (items.filter
        (fun x => decide (x.cart = cart ∧ x.product = m))).find?
        (fun x => decide (x.product_code = c)) = some ci := hci
    have hmem := List.mem_of_find?_eq_some hci'
    have hp := List.find?_some hci'
    rcases List.mem_filter.mp hmem with ⟨-, hq⟩
    rcases of_decide_eq_true hq with ⟨h1, h2⟩
    exact ⟨h1, h2, of_decide_eq_true hp⟩
  · intro hnone
    show (items.filter
        (fun x => decide (x.cart = cart ∧ x.product = m))).find?
        (fun x => decide (x.product_code = c)) = none
    apply List.find?_eq_none.mpr
    intro ci hmem
    rcases List.mem_filter.mp hmem with ⟨hin, hq⟩
    rcases of_decide_eq_true hq with ⟨h1, h2⟩
    intro hp
    exact hnone ci hin ⟨h1, h2, of_decide_eq_true hp⟩

/-- Witness for C9: without the keyword nothing is found, and the item found
for code SP-B indeed lies in cart 1, references `examplePhone` and carries
that code. -/
theorem is_in_cart_spec_witness :
    examplePhone.is_in_cart 1 false [goodCartItem] none = none ∧
    (goodCartItem.cart = 1 ∧ goodCartItem.product = examplePhone ∧
      goodCartItem.product_code = codeB) := by
  have h := is_in_cart_spec examplePhone 1 false [goodCartItem]
  exact ⟨h.1, (h.2 codeB).1 goodCartItem rfl⟩

end MyShop
